import Mathlib

/-!
Shallow embedding of the passenger-presence estimation slice of the
solutionair app (the `normalCDF` / `lognormCDF` helpers, the arrival
dissipation and departure accumulation curves, the per-flight series
generator `calculatePassengerDistribution` and the multi-flight grid
aggregator `calculatePassengerGridData`).

Conventions of the embedding:
* JavaScript `number` arithmetic is idealised as real arithmetic (`ℝ`).
* Unix timestamps (the results of `dayjs(...).unix()`) are modelled as `ℤ`;
  nullable / possibly-empty timestamp strings become `Option ℤ` holding the
  parsed instant.
* `Math.round` is `round : ℝ → ℤ` (both round halves up).
* JavaScript `%` on integers truncates toward zero, which is `Int.tmod`;
  JavaScript `Math.floor(a / b)` and `Math.ceil(a / b)` for integer `a` and
  positive integer `b` are exact and become `Int` floor division (Lean `/`)
  and `ceilDiv` below.
* `for (let t = start; t <= stop; t += step)` loops that only accumulate a
  list become a map over `sampleTimes start stop step`.
-/

noncomputable section

/-- Coefficient `a1` of the Abramowitz–Stegun style approximation in `normalCDF`. -/
def a1 : ℝ := 0.254829592

/-- Coefficient `a2` of the approximation in `normalCDF`. -/
def a2 : ℝ := -0.284496736

/-- Coefficient `a3` of the approximation in `normalCDF`. -/
def a3 : ℝ := 1.421413741

/-- Coefficient `a4` of the approximation in `normalCDF`. -/
def a4 : ℝ := -1.453152027

/-- Coefficient `a5` of the approximation in `normalCDF`. -/
def a5 : ℝ := 1.061405429

/-- Coefficient `p` of the approximation in `normalCDF`. -/
def p : ℝ := 0.3275911

/-- Standard normal CDF using error function approximation
(source: `normalCDF` in the campaigns page module). -/
def normalCDF (x : ℝ) : ℝ :=
  let sign : ℝ := if x < 0 then -1 else 1
  let absX : ℝ := |x| / Real.sqrt 2
  let t : ℝ := 1.0 / (1.0 + p * absX)
  let y : ℝ :=
    1.0 - (((((a5 * t + a4) * t) + a3) * t + a2) * t + a1) * t * Real.exp (-absX * absX)
  0.5 * (1.0 + sign * y)

/-- Log-normal CDF, matching `scipy.stats.lognorm.cdf(x, s=sigma, scale=scale)`
(source: `lognormCDF`). -/
def lognormCDF (x sigma scale : ℝ) : ℝ :=
  if x ≤ 0 then 0 else normalCDF ((Real.log x - Real.log scale) / sigma)

/-- Passengers still in the airport after an arrival: starts at `N`, drops
to `0` over the dissipation window (source: `arrivalsExitLogNormal`). -/
def arrivalsExitLogNormal (t N tLand tEnd : ℝ) (sigma : ℝ := 0.3)
    (medianFraction : ℝ := 0.3) : ℝ :=
  if t ≤ tLand then N
  else if t ≥ tEnd then 0
  else
    let elapsed := t - tLand
    let totalWindow := tEnd - tLand
    let scaled := elapsed / totalWindow
    let scale := medianFraction
    let cumProb := lognormCDF scaled sigma scale
    let maxProb := lognormCDF 1.0 sigma scale
    let cumulativeExits := N * (cumProb / maxProb)
    N - cumulativeExits

/-- Cumulative passengers who have arrived in the terminal for a departure:
starts at `0`, reaches `N` at departure (source: `passengersLogNormal`). -/
def passengersLogNormal (t N tOpen tDep : ℝ) (sigma : ℝ := 0.5)
    (medianFraction : ℝ := 0.7) : ℝ :=
  if t ≤ tOpen then 0
  else if t ≥ tDep then N
  else
    let elapsed := t - tOpen
    let totalWindow := tDep - tOpen
    let scaled := elapsed / totalWindow
    let scale := medianFraction
    let cumProb := lognormCDF scaled sigma scale
    let maxProb := lognormCDF 1.0 sigma scale
    N * (cumProb / maxProb)

/-- The quintic polynomial factor of `normalCDF` in Horner form, as a
function of `t = 1 / (1 + p * absX)`. -/
def hornerPoly (t : ℝ) : ℝ := (((((a5 * t + a4) * t) + a3) * t + a2) * t + a1) * t

/-- Derivative of `hornerPoly`. -/
def hornerPolyDeriv (t : ℝ) : ℝ := 5 * a5 * t ^ 4 + 4 * a4 * t ^ 3 + 3 * a3 * t ^ 2 + 2 * a2 * t + a1

/-- The rational substitution `t = 1 / (1 + p * (u / √2))` of `normalCDF`,
for a nonnegative argument `u = |x|`. -/
def tSub (u : ℝ) : ℝ := 1 / (1 + p * (u / Real.sqrt 2))

/-- The product `hornerPoly t * exp (-absX^2)` appearing in `normalCDF`,
as a function of `u = |x|`. -/
def qFactor (u : ℝ) : ℝ :=
  hornerPoly (tSub u) * Real.exp (-(u / Real.sqrt 2) * (u / Real.sqrt 2))

/-- The `y` value of `normalCDF` as a function of `u = |x|`. -/
def yApprox (u : ℝ) : ℝ := 1 - qFactor u

end

/-- Models JavaScript `String.prototype.toLowerCase` (ASCII case mapping),
used as `flight.flight_type?.toLowerCase()` in the source. -/
def toLowerCase (s : String) : String := String.mk (s.data.map Char.toLower)

/-- The `CampaignFlight` record (fields not used by the passenger-presence
computation are omitted).  `scheduled_time_utc` / `actual_time_utc` are
nullable timestamp strings in the source; they are modelled as the parsed
unix instant, `none` standing for a missing or empty string. -/
structure CampaignFlight where
  flight_number : String
  flight_type : String
  scheduled_time_utc : Option ℤ
  actual_time_utc : Option ℤ
  avg_pax_est : Option ℝ

/-- The `PassengerTimePoint` record produced by `calculatePassengerDistribution`
(the derived `time_formatted` label is omitted: it is `dayjs` formatting of
`time`). -/
structure PassengerTimePoint where
  flight_id : String
  flight_type : String
  time : ℤ
  passenger_count : ℤ

/-- A `PassengerGridRow`: the dynamic `flight_<i>` columns become the `cells`
list in flight order, `total` is the accumulated sum column
(`time_formatted` omitted as above). -/
structure PassengerGridRow where
  time : ℤ
  cells : List ℤ
  total : ℤ

/-- JavaScript `flight.actual_time_utc || flight.scheduled_time_utc`:
the actual instant when present, else the scheduled one. -/
def timeAnchor (f : CampaignFlight) : Option ℤ :=
  f.actual_time_utc <|> f.scheduled_time_utc

/-- JavaScript `flight.avg_pax_est || 100`: `null` and `0` are both falsy,
so both fall back to the default `100`. -/
noncomputable def paxOrDefault (o : Option ℝ) : ℝ :=
  match o with
  | none => 100
  | some v => if v = 0 then 100 else v

/-- The instants visited by `for (let t = start; t <= stop; t += step)`
with a positive `step`. -/
def sampleTimes (start stop step : ℤ) : List ℤ :=
  if start ≤ stop then
    (List.range (((stop - start) / step).toNat + 1)).map (fun i : ℕ => start + step * (i : ℤ))
  else []

/-- Models `Math.ceil(a / b)` for integer `a` and positive integer `b`. -/
def ceilDiv (a b : ℤ) : ℤ := -(-a / b)

/-- Hour snapping used for the departure window start:
`rawStart - (rawStart % 3600)` with the JavaScript remainder. -/
def hourSnap (rawStart : ℤ) : ℤ := rawStart - Int.tmod rawStart 3600

/-- The point pushed by the arrival loop of `calculatePassengerDistribution`. -/
noncomputable def arrivalPoint (f : CampaignFlight) (N : ℝ) (tLand tEnd t : ℤ) :
    PassengerTimePoint :=
  { flight_id := f.flight_number
    flight_type := f.flight_type
    time := t
    passenger_count := round (arrivalsExitLogNormal (t : ℝ) N (tLand : ℝ) (tEnd : ℝ)) }

/-- The point pushed by the departure loop of `calculatePassengerDistribution`. -/
noncomputable def departurePoint (f : CampaignFlight) (N : ℝ) (tOpen tDep t : ℤ) :
    PassengerTimePoint :=
  { flight_id := f.flight_number
    flight_type := f.flight_type
    time := t
    passenger_count := round (passengersLogNormal (t : ℝ) N (tOpen : ℝ) (tDep : ℝ)) }

/-- The final departure-instant point pushed by `calculatePassengerDistribution`
when the 5-minute stepping does not land exactly on `tDep`. -/
noncomputable def finalDeparturePoint (f : CampaignFlight) (N : ℝ) (tDep : ℤ) :
    PassengerTimePoint :=
  { flight_id := f.flight_number
    flight_type := f.flight_type
    time := tDep
    passenger_count := round N }

/-- Per-flight series generator (source: `calculatePassengerDistribution`). -/
noncomputable def calculatePassengerDistribution (flight : CampaignFlight) :
    List PassengerTimePoint :=
  match timeAnchor flight with
  | none => []
  | some tActual =>
    let N := paxOrDefault flight.avg_pax_est
    let fType := toLowerCase flight.flight_type
    if fType = "arrival" ∨ fType = "arr" then
      let tLand := tActual
      let tStartSnapped := ceilDiv tLand 300 * 300
      let tEnd := tLand + 90 * 60
      (sampleTimes tStartSnapped tEnd 300).map (arrivalPoint flight N tLand tEnd)
    else if fType = "departure" ∨ fType = "dep" then
      let tDep := tActual
      let rawStart := tDep - 3 * 3600
      let tOpenSnapped := hourSnap rawStart
      let pts := (sampleTimes tOpenSnapped tDep 300).map
        (departurePoint flight N tOpenSnapped tDep)
      let lastTime := ((pts.getLast?).map PassengerTimePoint.time).getD 0
      if lastTime < tDep then pts ++ [finalDeparturePoint flight N tDep]
      else pts
    else []

/-- The per-flight window data computed by the first pass of
`calculatePassengerGridData` (the `columnKey` string is the position in
`cells`). -/
structure FlightWindow where
  flight : CampaignFlight
  tActual : ℤ
  isArrival : Bool
  N : ℝ
  windowStart : ℤ
  windowEnd : ℤ

/-- First pass of `calculatePassengerGridData`: window and anchor data for
one flight (a missing timestamp yields the anchor `0`). -/
noncomputable def mkFlightWindow (f : CampaignFlight) : FlightWindow :=
  let tActual := (timeAnchor f).getD 0
  let fType := toLowerCase f.flight_type
  let N := paxOrDefault f.avg_pax_est
  let isArrival := fType == "arrival" || fType == "arr"
  { flight := f
    tActual := tActual
    isArrival := isArrival
    N := N
    windowStart := if isArrival then tActual else hourSnap (tActual - 3 * 3600)
    windowEnd := if isArrival then tActual + 90 * 60 else tActual }

/-- The per-flight cell computed inside the row loop of
`calculatePassengerGridData`. -/
noncomputable def gridCell (t : ℤ) (fd : FlightWindow) : ℤ :=
  if fd.isArrival then
    let tLand := fd.tActual
    if t < tLand then 0
    else
      let tEnd := tLand + 90 * 60
      round (arrivalsExitLogNormal (t : ℝ) fd.N (tLand : ℝ) (tEnd : ℝ))
  else
    let tDep := fd.tActual
    if t > tDep then 0
    else
      let tOpen := hourSnap (tDep - 3 * 3600)
      round (passengersLogNormal (t : ℝ) fd.N (tOpen : ℝ) (tDep : ℝ))

/-- Multi-flight grid aggregator (source: `calculatePassengerGridData`). -/
noncomputable def calculatePassengerGridData (flights : List CampaignFlight) :
    List PassengerGridRow :=
  if flights.isEmpty then []
  else
    let flightData := flights.map mkFlightWindow
    let minTime := ((flightData.map FlightWindow.windowStart).min?).getD 0
    let maxTime := ((flightData.map FlightWindow.windowEnd).max?).getD 0 + 2 * 3600
    let startTime := minTime / 300 * 300
    (sampleTimes startTime maxTime 300).map (fun t =>
      let cells := flightData.map (gridCell t)
      { time := t, cells := cells, total := cells.sum })

/-- Modelled from the spec (§4.5), for the refinement claim about the grid:
the value a flight's grid cell should have at instant `t` — the matching
model (4.2 for arrivals, 4.3 for departures) evaluated directly at `t` and
rounded, an arrival instant strictly before landing clamped to `0`, and a
departure instant strictly after departure clamped to `0`. -/
noncomputable def specCell (f : CampaignFlight) (t : ℤ) : ℤ :=
  let tActual := (timeAnchor f).getD 0
  let N := paxOrDefault f.avg_pax_est
  if toLowerCase f.flight_type = "arrival" ∨ toLowerCase f.flight_type = "arr" then
    if t < tActual then 0
    else round (arrivalsExitLogNormal (t : ℝ) N (tActual : ℝ) ((tActual + 90 * 60 : ℤ) : ℝ))
  else
    if tActual < t then 0
    else round (passengersLogNormal (t : ℝ) N ((hourSnap (tActual - 3 * 3600) : ℤ) : ℝ) (tActual : ℝ))

/-- A concrete departure flight used to instantiate theorems: departs at
unix instant 36000 (10:00) with 100 estimated passengers. -/
def depFlight : CampaignFlight :=
  { flight_number := "D100"
    flight_type := "departure"
    scheduled_time_utc := some 36000
    actual_time_utc := none
    avg_pax_est := some 100 }

/-- A concrete flight whose type string is recognized by neither branch. -/
def cargoFlight : CampaignFlight :=
  { flight_number := "X1"
    flight_type := "Cargo"
    scheduled_time_utc := none
    actual_time_utc := some 36000
    avg_pax_est := none }

/-- A concrete flight with neither an actual nor a scheduled timestamp. -/
def noTimeFlight : CampaignFlight :=
  { flight_number := "T0"
    flight_type := "arrival"
    scheduled_time_utc := none
    actual_time_utc := none
    avg_pax_est := some 50 }

/-- A concrete departure flight with a fractional estimated passenger count. -/
def fracPaxFlight : CampaignFlight :=
  { flight_number := "F1"
    flight_type := "departure"
    scheduled_time_utc := none
    actual_time_utc := some 36000
    avg_pax_est := some 0.7 }

/-- A concrete arrival flight that lands at unix instant 36000. -/
def arrFlight : CampaignFlight :=
  { flight_number := "A50"
    flight_type := "arrival"
    scheduled_time_utc := some 36000
    actual_time_utc := none
    avg_pax_est := some 50 }

/-- A concrete flight whose estimated passenger count is present but zero. -/
def zeroPaxFlight : CampaignFlight :=
  { flight_number := "Z0"
    flight_type := "departure"
    scheduled_time_utc := none
    actual_time_utc := some 36000
    avg_pax_est := some 0 }

theorem hornerPolyDeriv_pos (t : ℝ) : 0 < hornerPolyDeriv t := by
  unfold hornerPolyDeriv a1 a2 a3 a4 a5
  nlinarith [sq_nonneg (t * t - 0.5477 * t), sq_nonneg (t - 0.1065), sq_nonneg t,
    sq_nonneg (t * t)]

theorem hornerPoly_hasDerivAt (t : ℝ) : HasDerivAt hornerPoly (hornerPolyDeriv t) t := by
  have h : hornerPoly = fun s : ℝ =>
      a5 * s ^ 5 + a4 * s ^ 4 + a3 * s ^ 3 + a2 * s ^ 2 + a1 * s := by
    funext s; unfold hornerPoly; ring
  rw [h]
  have h5 := (hasDerivAt_pow 5 t).const_mul a5
  have h4 := (hasDerivAt_pow 4 t).const_mul a4
  have h3 := (hasDerivAt_pow 3 t).const_mul a3
  have h2 := (hasDerivAt_pow 2 t).const_mul a2
  have h1 := (hasDerivAt_pow 1 t).const_mul a1
  have hsum := (((h5.add h4).add h3).add h2).add h1
  convert hsum using 1
  · funext s; ring
  · unfold hornerPolyDeriv; push_cast; ring

theorem hornerPoly_strictMono : StrictMono hornerPoly :=
  strictMono_of_deriv_pos fun t => (hornerPoly_hasDerivAt t).deriv ▸ hornerPolyDeriv_pos t

theorem hornerPoly_zero : hornerPoly 0 = 0 := by unfold hornerPoly; ring

theorem hornerPoly_one_lt_one : hornerPoly 1 < 1 := by
  unfold hornerPoly a1 a2 a3 a4 a5; norm_num

theorem p_pos : 0 < p := by unfold p; norm_num

theorem tSub_mem (u : ℝ) (hu : 0 ≤ u) : 0 < tSub u ∧ tSub u ≤ 1 := by
  unfold tSub
  have hden : (1 : ℝ) ≤ 1 + p * (u / Real.sqrt 2) := by
    have : 0 ≤ p * (u / Real.sqrt 2) :=
      mul_nonneg p_pos.le (div_nonneg hu (Real.sqrt_nonneg 2))
    linarith
  constructor
  · positivity
  · rw [div_le_one (by linarith)]; linarith

theorem tSub_anti {u v : ℝ} (hu : 0 ≤ u) (huv : u ≤ v) : tSub v ≤ tSub u := by
  unfold tSub
  have h2 : (0 : ℝ) < Real.sqrt 2 := by positivity
  have hden : (0 : ℝ) < 1 + p * (u / Real.sqrt 2) := by
    have : 0 ≤ p * (u / Real.sqrt 2) :=
      mul_nonneg p_pos.le (div_nonneg hu h2.le)
    linarith
  apply one_div_le_one_div_of_le hden
  have : u / Real.sqrt 2 ≤ v / Real.sqrt 2 := (div_le_div_iff_of_pos_right h2).mpr huv
  nlinarith [p_pos]

theorem qFactor_pos (u : ℝ) (hu : 0 ≤ u) : 0 < qFactor u := by
  unfold qFactor
  have ht := tSub_mem u hu
  have hp : 0 < hornerPoly (tSub u) := by
    have := hornerPoly_strictMono ht.1
    rwa [hornerPoly_zero] at this
  exact mul_pos hp (Real.exp_pos _)

theorem qFactor_le_hornerPoly_one (u : ℝ) (hu : 0 ≤ u) : qFactor u ≤ hornerPoly 1 := by
  unfold qFactor
  have ht := tSub_mem u hu
  have hp : 0 < hornerPoly (tSub u) := by
    have := hornerPoly_strictMono ht.1
    rwa [hornerPoly_zero] at this
  have hP1 : hornerPoly (tSub u) ≤ hornerPoly 1 := hornerPoly_strictMono.monotone ht.2
  have hexp : Real.exp (-(u / Real.sqrt 2) * (u / Real.sqrt 2)) ≤ 1 := by
    rw [Real.exp_le_one_iff]
    nlinarith [div_nonneg hu (Real.sqrt_nonneg 2)]
  calc hornerPoly (tSub u) * Real.exp (-(u / Real.sqrt 2) * (u / Real.sqrt 2))
      ≤ hornerPoly (tSub u) * 1 := by nlinarith
    _ ≤ hornerPoly 1 := by linarith

theorem qFactor_anti {u v : ℝ} (hu : 0 ≤ u) (huv : u ≤ v) : qFactor v ≤ qFactor u := by
  unfold qFactor
  have hv : (0 : ℝ) ≤ v := le_trans hu huv
  have htv := tSub_mem v hv
  have htu := tSub_mem u hu
  have hPv : 0 < hornerPoly (tSub v) := by
    have := hornerPoly_strictMono htv.1
    rwa [hornerPoly_zero] at this
  have hPle : hornerPoly (tSub v) ≤ hornerPoly (tSub u) :=
    hornerPoly_strictMono.monotone (tSub_anti hu huv)
  have hexple : Real.exp (-(v / Real.sqrt 2) * (v / Real.sqrt 2)) ≤
      Real.exp (-(u / Real.sqrt 2) * (u / Real.sqrt 2)) := by
    apply Real.exp_le_exp.mpr
    have h2 : (0 : ℝ) < Real.sqrt 2 := by positivity
    have h1 : u / Real.sqrt 2 ≤ v / Real.sqrt 2 := (div_le_div_iff_of_pos_right h2).mpr huv
    have h0 : 0 ≤ u / Real.sqrt 2 := div_nonneg hu h2.le
    nlinarith
  calc hornerPoly (tSub v) * Real.exp (-(v / Real.sqrt 2) * (v / Real.sqrt 2))
      ≤ hornerPoly (tSub v) * Real.exp (-(u / Real.sqrt 2) * (u / Real.sqrt 2)) := by
        nlinarith [Real.exp_pos (-(u / Real.sqrt 2) * (u / Real.sqrt 2))]
    _ ≤ hornerPoly (tSub u) * Real.exp (-(u / Real.sqrt 2) * (u / Real.sqrt 2)) := by
        nlinarith [Real.exp_pos (-(u / Real.sqrt 2) * (u / Real.sqrt 2))]

theorem yApprox_pos (u : ℝ) (hu : 0 ≤ u) : 0 < yApprox u := by
  unfold yApprox
  have h1 := qFactor_le_hornerPoly_one u hu
  have h2 := hornerPoly_one_lt_one
  linarith

theorem yApprox_lt_one (u : ℝ) (hu : 0 ≤ u) : yApprox u < 1 := by
  unfold yApprox
  have := qFactor_pos u hu
  linarith

theorem yApprox_mono {u v : ℝ} (hu : 0 ≤ u) (huv : u ≤ v) : yApprox u ≤ yApprox v := by
  unfold yApprox
  have := qFactor_anti hu huv
  linarith

theorem normalCDF_eq_of_nonneg {x : ℝ} (hx : 0 ≤ x) :
    normalCDF x = 0.5 * (1 + yApprox x) := by
  unfold normalCDF yApprox qFactor tSub
  rw [if_neg (not_lt.mpr hx), abs_of_nonneg hx]
  unfold hornerPoly
  ring

theorem normalCDF_eq_of_neg {x : ℝ} (hx : x < 0) :
    normalCDF x = 0.5 * (1 - yApprox (-x)) := by
  unfold normalCDF yApprox qFactor tSub
  rw [if_pos hx, abs_of_neg hx]
  unfold hornerPoly
  ring

theorem normalCDF_pos (x : ℝ) : 0 < normalCDF x := by
  rcases lt_or_le x 0 with hx | hx
  · rw [normalCDF_eq_of_neg hx]
    have := yApprox_lt_one (-x) (by linarith)
    linarith
  · rw [normalCDF_eq_of_nonneg hx]
    have := yApprox_pos x hx
    linarith

theorem normalCDF_monotone : Monotone normalCDF := by
  intro x1 x2 h
  rcases lt_or_le x1 0 with h1 | h1
  · rcases lt_or_le x2 0 with h2 | h2
    · rw [normalCDF_eq_of_neg h1, normalCDF_eq_of_neg h2]
      have : yApprox (-x2) ≤ yApprox (-x1) := yApprox_mono (by linarith) (by linarith)
      linarith
    · rw [normalCDF_eq_of_neg h1, normalCDF_eq_of_nonneg h2]
      have ha : 0 < yApprox (-x1) := yApprox_pos (-x1) (by linarith)
      have hb : 0 < yApprox x2 := yApprox_pos x2 h2
      linarith
  · rw [normalCDF_eq_of_nonneg h1, normalCDF_eq_of_nonneg (le_trans h1 h)]
    have := yApprox_mono h1 h
    linarith

theorem lognormCDF_nonneg (x sigma scale : ℝ) : 0 ≤ lognormCDF x sigma scale := by
  unfold lognormCDF
  split
  · exact le_refl 0
  · exact (normalCDF_pos _).le

theorem lognormCDF_pos {x : ℝ} (hx : 0 < x) (sigma scale : ℝ) :
    0 < lognormCDF x sigma scale := by
  unfold lognormCDF
  rw [if_neg (not_le.mpr hx)]
  exact normalCDF_pos _

theorem lognormCDF_mono {x1 x2 sigma : ℝ} (hsigma : 0 < sigma) (h : x1 ≤ x2)
    (scale : ℝ) : lognormCDF x1 sigma scale ≤ lognormCDF x2 sigma scale := by
  unfold lognormCDF
  rcases le_or_lt x1 0 with h1 | h1
  · rw [if_pos h1]
    split
    · exact le_refl 0
    · exact (normalCDF_pos _).le
  · rw [if_neg (not_le.mpr h1), if_neg (not_le.mpr (lt_of_lt_of_le h1 h))]
    apply normalCDF_monotone
    apply div_le_div_of_nonneg_right _ hsigma.le
    have := Real.log_le_log h1 h
    linarith

theorem arrivalsExit_eq_N {t N tLand tEnd sigma mf : ℝ} (h : t ≤ tLand) :
    arrivalsExitLogNormal t N tLand tEnd sigma mf = N := by
  unfold arrivalsExitLogNormal
  rw [if_pos h]

theorem arrivalsExit_eq_zero {t N tLand tEnd sigma mf : ℝ} (h1 : tLand < t)
    (h2 : tEnd ≤ t) : arrivalsExitLogNormal t N tLand tEnd sigma mf = 0 := by
  unfold arrivalsExitLogNormal
  rw [if_neg (not_le.mpr h1), if_pos h2]

theorem arrivalsExit_interior {t N tLand tEnd sigma mf : ℝ} (h1 : tLand < t)
    (h2 : t < tEnd) :
    arrivalsExitLogNormal t N tLand tEnd sigma mf =
      N - N * (lognormCDF ((t - tLand) / (tEnd - tLand)) sigma mf /
        lognormCDF 1 sigma mf) := by
  unfold arrivalsExitLogNormal
  rw [if_neg (not_le.mpr h1), if_neg (not_le.mpr h2)]
  norm_num

theorem passengers_eq_zero {t N tOpen tDep sigma mf : ℝ} (h : t ≤ tOpen) :
    passengersLogNormal t N tOpen tDep sigma mf = 0 := by
  unfold passengersLogNormal
  rw [if_pos h]

theorem passengers_eq_N {t N tOpen tDep sigma mf : ℝ} (h1 : tOpen < t)
    (h2 : tDep ≤ t) : passengersLogNormal t N tOpen tDep sigma mf = N := by
  unfold passengersLogNormal
  rw [if_neg (not_le.mpr h1), if_pos h2]

theorem passengers_interior {t N tOpen tDep sigma mf : ℝ} (h1 : tOpen < t)
    (h2 : t < tDep) :
    passengersLogNormal t N tOpen tDep sigma mf =
      N * (lognormCDF ((t - tOpen) / (tDep - tOpen)) sigma mf /
        lognormCDF 1 sigma mf) := by
  unfold passengersLogNormal
  rw [if_neg (not_le.mpr h1), if_neg (not_le.mpr h2)]
  norm_num

theorem ratio_mem_unit {x sigma mf : ℝ} (hsigma : 0 < sigma) (hx : x ≤ 1) :
    0 ≤ lognormCDF x sigma mf / lognormCDF 1 sigma mf ∧
      lognormCDF x sigma mf / lognormCDF 1 sigma mf ≤ 1 := by
  have hmax : 0 < lognormCDF 1 sigma mf := lognormCDF_pos one_pos sigma mf
  constructor
  · exact div_nonneg (lognormCDF_nonneg _ _ _) hmax.le
  · rw [div_le_one hmax]
    exact lognormCDF_mono hsigma hx mf

theorem arrivalsExit_bounds {t N tLand tEnd sigma mf : ℝ} (hN : 0 ≤ N)
    (hw : tLand < tEnd) (hsigma : 0 < sigma) :
    0 ≤ arrivalsExitLogNormal t N tLand tEnd sigma mf ∧
      arrivalsExitLogNormal t N tLand tEnd sigma mf ≤ N := by
  rcases le_or_lt t tLand with h1 | h1
  · rw [arrivalsExit_eq_N h1]
    exact ⟨hN, le_refl N⟩
  rcases le_or_lt tEnd t with h2 | h2
  · rw [arrivalsExit_eq_zero h1 h2]
    exact ⟨le_refl 0, hN⟩
  · rw [arrivalsExit_interior h1 h2]
    have hx : (t - tLand) / (tEnd - tLand) ≤ 1 := by
      rw [div_le_one (by linarith)]
      linarith
    have hr := @ratio_mem_unit _ _ mf hsigma hx
    constructor <;> nlinarith [hr.1, hr.2]

theorem passengers_bounds {t N tOpen tDep sigma mf : ℝ} (hN : 0 ≤ N)
    (hw : tOpen < tDep) (hsigma : 0 < sigma) :
    0 ≤ passengersLogNormal t N tOpen tDep sigma mf ∧
      passengersLogNormal t N tOpen tDep sigma mf ≤ N := by
  rcases le_or_lt t tOpen with h1 | h1
  · rw [passengers_eq_zero h1]
    exact ⟨le_refl 0, hN⟩
  rcases le_or_lt tDep t with h2 | h2
  · rw [passengers_eq_N h1 h2]
    exact ⟨hN, le_refl N⟩
  · rw [passengers_interior h1 h2]
    have hx : (t - tOpen) / (tDep - tOpen) ≤ 1 := by
      rw [div_le_one (by linarith)]
      linarith
    have hr := @ratio_mem_unit _ _ mf hsigma hx
    constructor <;> nlinarith [hr.1, hr.2]

theorem arrivalsExit_antitone {N tLand tEnd sigma mf t1 t2 : ℝ} (hN : 0 ≤ N)
    (hw : tLand < tEnd) (hsigma : 0 < sigma) (h : t1 ≤ t2) :
    arrivalsExitLogNormal t2 N tLand tEnd sigma mf ≤
      arrivalsExitLogNormal t1 N tLand tEnd sigma mf := by
  rcases le_or_lt t2 tLand with h2 | h2
  · rw [arrivalsExit_eq_N h2, arrivalsExit_eq_N (h.trans h2)]
  rcases le_or_lt tEnd t2 with h2e | h2e
  · rw [arrivalsExit_eq_zero h2 h2e]
    exact (arrivalsExit_bounds hN hw hsigma).1
  rcases le_or_lt t1 tLand with h1 | h1
  · rw [arrivalsExit_eq_N h1]
    exact (arrivalsExit_bounds hN hw hsigma).2
  · rw [arrivalsExit_interior h1 (lt_of_le_of_lt h h2e), arrivalsExit_interior h2 h2e]
    have hmax : 0 < lognormCDF 1 sigma mf := lognormCDF_pos one_pos sigma mf
    have hcum : lognormCDF ((t1 - tLand) / (tEnd - tLand)) sigma mf ≤
        lognormCDF ((t2 - tLand) / (tEnd - tLand)) sigma mf := by
      apply lognormCDF_mono hsigma
      apply div_le_div_of_nonneg_right (by linarith) (by linarith)
    have hdiv : lognormCDF ((t1 - tLand) / (tEnd - tLand)) sigma mf /
        lognormCDF 1 sigma mf ≤
        lognormCDF ((t2 - tLand) / (tEnd - tLand)) sigma mf /
        lognormCDF 1 sigma mf :=
      div_le_div_of_nonneg_right hcum hmax.le
    nlinarith [hdiv]

theorem passengers_monotone {N tOpen tDep sigma mf t1 t2 : ℝ} (hN : 0 ≤ N)
    (hw : tOpen < tDep) (hsigma : 0 < sigma) (h : t1 ≤ t2) :
    passengersLogNormal t1 N tOpen tDep sigma mf ≤
      passengersLogNormal t2 N tOpen tDep sigma mf := by
  rcases le_or_lt t1 tOpen with h1 | h1
  · rw [passengers_eq_zero h1]
    exact (passengers_bounds hN hw hsigma).1
  rcases le_or_lt tDep t1 with h1e | h1e
  · rw [passengers_eq_N h1 h1e, passengers_eq_N (lt_of_lt_of_le h1 h) (h1e.trans h)]
  rcases le_or_lt tDep t2 with h2e | h2e
  · rw [passengers_eq_N (lt_of_lt_of_le h1 h) h2e]
    exact (passengers_bounds hN hw hsigma).2
  · rw [passengers_interior h1 h1e, passengers_interior (lt_of_lt_of_le h1 h) h2e]
    have hmax : 0 < lognormCDF 1 sigma mf := lognormCDF_pos one_pos sigma mf
    have hcum : lognormCDF ((t1 - tOpen) / (tDep - tOpen)) sigma mf ≤
        lognormCDF ((t2 - tOpen) / (tDep - tOpen)) sigma mf := by
      apply lognormCDF_mono hsigma
      apply div_le_div_of_nonneg_right (by linarith) (by linarith)
    have hdiv : lognormCDF ((t1 - tOpen) / (tDep - tOpen)) sigma mf /
        lognormCDF 1 sigma mf ≤
        lognormCDF ((t2 - tOpen) / (tDep - tOpen)) sigma mf /
        lognormCDF 1 sigma mf :=
      div_le_div_of_nonneg_right hcum hmax.le
    nlinarith [hdiv]

/-- C1: for every cohort size `N ≥ 0` and every window with `tLand < tEnd`,
the arrival dissipation function `arrivalsExitLogNormal` returns exactly `N`
for every `t ≤ tLand` and exactly `0` for every `t ≥ tEnd`. -/
theorem C1_arrival_dissipation_boundaries (t N tLand tEnd sigma mf : ℝ)
    (hN : 0 ≤ N) (hw : tLand < tEnd) :
    (t ≤ tLand → arrivalsExitLogNormal t N tLand tEnd sigma mf = N) ∧
      (tEnd ≤ t → arrivalsExitLogNormal t N tLand tEnd sigma mf = 0) :=
  ⟨fun h => arrivalsExit_eq_N h, fun h => arrivalsExit_eq_zero (lt_of_lt_of_le hw h) h⟩

theorem C1_arrival_dissipation_boundaries_witness :
    (0 : ℝ) ≤ 120 ∧ (0 : ℝ) < 5400 ∧
      arrivalsExitLogNormal 0 120 0 5400 0.3 0.3 = 120 ∧
      arrivalsExitLogNormal 5400 120 0 5400 0.3 0.3 = 0 :=
  ⟨by norm_num, by norm_num,
    (C1_arrival_dissipation_boundaries 0 120 0 5400 0.3 0.3 (by norm_num)
      (by norm_num)).1 (by norm_num),
    (C1_arrival_dissipation_boundaries 5400 120 0 5400 0.3 0.3 (by norm_num)
      (by norm_num)).2 (by norm_num)⟩

/-- C2: for every cohort size `N ≥ 0` and every window with `tOpen < tDep`,
the departure accumulation function `passengersLogNormal` returns exactly `0`
for every `t ≤ tOpen` and exactly `N` for every `t ≥ tDep`. -/
theorem C2_departure_accumulation_boundaries (t N tOpen tDep sigma mf : ℝ)
    (hN : 0 ≤ N) (hw : tOpen < tDep) :
    (t ≤ tOpen → passengersLogNormal t N tOpen tDep sigma mf = 0) ∧
      (tDep ≤ t → passengersLogNormal t N tOpen tDep sigma mf = N) :=
  ⟨fun h => passengers_eq_zero h, fun h => passengers_eq_N (lt_of_lt_of_le hw h) h⟩

theorem C2_departure_accumulation_boundaries_witness :
    (0 : ℝ) ≤ 150 ∧ (0 : ℝ) < 10800 ∧
      passengersLogNormal 0 150 0 10800 0.5 0.7 = 0 ∧
      passengersLogNormal 10800 150 0 10800 0.5 0.7 = 150 :=
  ⟨by norm_num, by norm_num,
    (C2_departure_accumulation_boundaries 0 150 0 10800 0.5 0.7 (by norm_num)
      (by norm_num)).1 (by norm_num),
    (C2_departure_accumulation_boundaries 10800 150 0 10800 0.5 0.7 (by norm_num)
      (by norm_num)).2 (by norm_num)⟩

/-- C3: for fixed `N ≥ 0`, a window of positive duration, `sigma > 0` and
`medianFraction > 0`, the arrival dissipation curve is non-increasing in `t`
and the departure accumulation curve is non-decreasing in `t`. -/
theorem C3_curves_monotonic (N lo hi sigma mf t1 t2 : ℝ) (hN : 0 ≤ N)
    (hw : lo < hi) (hsigma : 0 < sigma) (hmf : 0 < mf) (h : t1 ≤ t2) :
    arrivalsExitLogNormal t2 N lo hi sigma mf ≤
        arrivalsExitLogNormal t1 N lo hi sigma mf ∧
      passengersLogNormal t1 N lo hi sigma mf ≤
        passengersLogNormal t2 N lo hi sigma mf :=
  ⟨arrivalsExit_antitone hN hw hsigma h, passengers_monotone hN hw hsigma h⟩

theorem C3_curves_monotonic_witness :
    (0 : ℝ) ≤ 50 ∧ (0 : ℝ) < 5400 ∧ (0 : ℝ) < 0.3 ∧ (600 : ℝ) ≤ 1200 ∧
      arrivalsExitLogNormal 1200 50 0 5400 0.3 0.3 ≤
        arrivalsExitLogNormal 600 50 0 5400 0.3 0.3 ∧
      passengersLogNormal 600 50 0 5400 0.3 0.3 ≤
        passengersLogNormal 1200 50 0 5400 0.3 0.3 :=
  ⟨by norm_num, by norm_num, by norm_num, by norm_num,
    (C3_curves_monotonic 50 0 5400 0.3 0.3 600 1200 (by norm_num) (by norm_num)
      (by norm_num) (by norm_num) (by norm_num)).1,
    (C3_curves_monotonic 50 0 5400 0.3 0.3 600 1200 (by norm_num) (by norm_num)
      (by norm_num) (by norm_num) (by norm_num)).2⟩

/-- C9: for every `sigma > 0` and `scale > 0`, `lognormCDF x sigma scale`
returns exactly `0` for every `x ≤ 0`, and for every `x > 0` it equals the
standard normal CDF approximation at `(ln x − ln scale) / sigma`. -/
theorem C9_lognormCDF_cases (x sigma scale : ℝ) (hs : 0 < sigma)
    (hsc : 0 < scale) :
    (x ≤ 0 → lognormCDF x sigma scale = 0) ∧
      (0 < x → lognormCDF x sigma scale =
        normalCDF ((Real.log x - Real.log scale) / sigma)) := by
  unfold lognormCDF
  constructor
  · intro h
    rw [if_pos h]
  · intro h
    rw [if_neg (not_le.mpr h)]

theorem C9_lognormCDF_cases_witness :
    (0 : ℝ) < 1 ∧ (0 : ℝ) < 0.7 ∧ lognormCDF (-3) 1 0.7 = 0 ∧
      lognormCDF 2 1 0.7 = normalCDF ((Real.log 2 - Real.log 0.7) / 1) :=
  ⟨by norm_num, by norm_num,
    (C9_lognormCDF_cases (-3) 1 0.7 (by norm_num) (by norm_num)).1 (by norm_num),
    (C9_lognormCDF_cases 2 1 0.7 (by norm_num) (by norm_num)).2 (by norm_num)⟩

theorem tmod_neg_arg (m k : ℤ) : Int.tmod (-m) k = -Int.tmod m k := by
  simp only [Int.tmod_def, Int.neg_tdiv]
  ring

theorem tmod_bounds (r : ℤ) : -3600 < Int.tmod r 3600 ∧ Int.tmod r 3600 < 3600 := by
  refine ⟨?_, Int.tmod_lt_of_pos r (by norm_num)⟩
  rcases le_or_lt 0 r with hr | hr
  · have := Int.tmod_nonneg 3600 hr
    linarith
  · have h1 := tmod_neg_arg (-r) 3600
    rw [neg_neg] at h1
    have h2 := Int.tmod_lt_of_pos (-r) (b := 3600) (by norm_num)
    linarith

theorem hourSnap_lt (r : ℤ) : hourSnap r < r + 3600 := by
  unfold hourSnap
  have := (tmod_bounds r).1
  linarith

theorem hourSnap_window_lt (tDep : ℤ) : hourSnap (tDep - 3 * 3600) < tDep := by
  have := hourSnap_lt (tDep - 3 * 3600)
  linarith

theorem mem_sampleTimes_bounds {s e t : ℤ} (h : t ∈ sampleTimes s e 300) :
    s ≤ t ∧ t ≤ e := by
  unfold sampleTimes at h
  by_cases hse : s ≤ e
  · rw [if_pos hse] at h
    obtain ⟨i, hi, rfl⟩ := List.mem_map.mp h
    have hilt := List.mem_range.mp hi
    have hK : ((((e - s) / 300).toNat : ℤ)) = (e - s) / 300 :=
      Int.toNat_of_nonneg (Int.ediv_nonneg (by omega) (by norm_num))
    omega
  · rw [if_neg hse] at h
    simp at h

theorem sampleTimes_ne_nil {s e : ℤ} (h : s ≤ e) : sampleTimes s e 300 ≠ [] := by
  unfold sampleTimes
  rw [if_pos h]
  simp

theorem sampleTimes_getLast {s e : ℤ} (h : s ≤ e) :
    (sampleTimes s e 300).getLast? = some (s + 300 * ((e - s) / 300)) := by
  unfold sampleTimes
  rw [if_pos h, List.range_succ, List.map_append, List.map_cons, List.map_nil,
    List.getLast?_concat]
  have hK : ((((e - s) / 300).toNat : ℤ)) = (e - s) / 300 :=
    Int.toNat_of_nonneg (Int.ediv_nonneg (by omega) (by norm_num))
  simp [hK]

theorem dist_of_no_anchor {f : CampaignFlight} (h : timeAnchor f = none) :
    calculatePassengerDistribution f = [] := by
  unfold calculatePassengerDistribution
  rw [h]

theorem dist_of_unrecognized {f : CampaignFlight} {T : ℤ} (h : timeAnchor f = some T)
    (h1 : ¬(toLowerCase f.flight_type = "arrival" ∨ toLowerCase f.flight_type = "arr"))
    (h2 : ¬(toLowerCase f.flight_type = "departure" ∨ toLowerCase f.flight_type = "dep")) :
    calculatePassengerDistribution f = [] := by
  unfold calculatePassengerDistribution
  rw [h]
  simp only [if_neg h1, if_neg h2]

theorem dist_arrival {f : CampaignFlight} {T : ℤ} (h : timeAnchor f = some T)
    (h1 : toLowerCase f.flight_type = "arrival" ∨ toLowerCase f.flight_type = "arr") :
    calculatePassengerDistribution f =
      (sampleTimes (ceilDiv T 300 * 300) (T + 90 * 60) 300).map
        (arrivalPoint f (paxOrDefault f.avg_pax_est) T (T + 90 * 60)) := by
  unfold calculatePassengerDistribution
  rw [h]
  simp only [if_pos h1]

theorem dist_departure {f : CampaignFlight} {T : ℤ} (h : timeAnchor f = some T)
    (h1 : ¬(toLowerCase f.flight_type = "arrival" ∨ toLowerCase f.flight_type = "arr"))
    (h2 : toLowerCase f.flight_type = "departure" ∨ toLowerCase f.flight_type = "dep") :
    calculatePassengerDistribution f =
      if ((((sampleTimes (hourSnap (T - 3 * 3600)) T 300).map
            (departurePoint f (paxOrDefault f.avg_pax_est) (hourSnap (T - 3 * 3600)) T)).getLast?).map
            PassengerTimePoint.time).getD 0 < T then
        (sampleTimes (hourSnap (T - 3 * 3600)) T 300).map
            (departurePoint f (paxOrDefault f.avg_pax_est) (hourSnap (T - 3 * 3600)) T) ++
          [finalDeparturePoint f (paxOrDefault f.avg_pax_est) T]
      else
        (sampleTimes (hourSnap (T - 3 * 3600)) T 300).map
          (departurePoint f (paxOrDefault f.avg_pax_est) (hourSnap (T - 3 * 3600)) T) := by
  unfold calculatePassengerDistribution
  rw [h]
  simp only [if_neg h1, if_pos h2]

/-- C7: for every departure flight with an anchor time, the series produced by
`calculatePassengerDistribution` is non-empty, its last point is exactly the
departure instant carrying the full rounded `N`, and when the regular
5-minute stepping from the hour-snapped window start does not land exactly on
`tDep` that point is an extra, explicitly appended one. -/
theorem C7_departure_series_last_point (f : CampaignFlight) (tDep : ℤ)
    (hT : timeAnchor f = some tDep)
    (hdep : toLowerCase f.flight_type = "departure" ∨ toLowerCase f.flight_type = "dep") :
    calculatePassengerDistribution f ≠ [] ∧
      (calculatePassengerDistribution f).getLast? = some
        { flight_id := f.flight_number
          flight_type := f.flight_type
          time := tDep
          passenger_count := round (paxOrDefault f.avg_pax_est) } ∧
      (¬ (300 : ℤ) ∣ (tDep - hourSnap (tDep - 3 * 3600)) →
        (calculatePassengerDistribution f).length =
          (sampleTimes (hourSnap (tDep - 3 * 3600)) tDep 300).length + 1) := by
  have harr : ¬(toLowerCase f.flight_type = "arrival" ∨ toLowerCase f.flight_type = "arr") := by
    rcases hdep with h | h <;> rw [h] <;> decide
  rw [dist_departure hT harr hdep]
  set s := hourSnap (tDep - 3 * 3600) with hs
  have hslt : s < tDep := hourSnap_window_lt tDep
  have hgl := sampleTimes_getLast (s := s) (e := tDep) hslt.le
  have hlast : ((((sampleTimes s tDep 300).map
      (departurePoint f (paxOrDefault f.avg_pax_est) s tDep)).getLast?).map
      PassengerTimePoint.time).getD 0 = s + 300 * ((tDep - s) / 300) := by
    rw [List.getLast?_map, hgl]
    simp [departurePoint]
  by_cases hdvd : (300 : ℤ) ∣ (tDep - s)
  · have hexact : s + 300 * ((tDep - s) / 300) = tDep := by omega
    rw [hlast, hexact, if_neg (lt_irrefl tDep)]
    refine ⟨?_, ?_, ?_⟩
    · intro hnil
      exact sampleTimes_ne_nil hslt.le (List.map_eq_nil_iff.mp hnil)
    · rw [List.getLast?_map, hgl, Option.map_some', hexact]
      unfold departurePoint
      have hval : passengersLogNormal ((tDep : ℤ) : ℝ) (paxOrDefault f.avg_pax_est)
          ((s : ℤ) : ℝ) ((tDep : ℤ) : ℝ) = paxOrDefault f.avg_pax_est :=
        passengers_eq_N (by exact_mod_cast hslt) (le_refl _)
      rw [hval]
    · intro hc
      exact absurd hdvd hc
  · have hlt : s + 300 * ((tDep - s) / 300) < tDep := by omega
    rw [hlast, if_pos hlt]
    refine ⟨by simp, ?_, ?_⟩
    · rw [List.getLast?_concat]
      unfold finalDeparturePoint
      rfl
    · intro _
      simp

theorem C7_departure_series_last_point_witness :
    timeAnchor depFlight = some 36000 ∧
      (toLowerCase depFlight.flight_type = "departure" ∨
        toLowerCase depFlight.flight_type = "dep") ∧
      calculatePassengerDistribution depFlight ≠ [] ∧
      (calculatePassengerDistribution depFlight).getLast? = some
        { flight_id := depFlight.flight_number
          flight_type := depFlight.flight_type
          time := 36000
          passenger_count := round (paxOrDefault depFlight.avg_pax_est) } :=
  ⟨rfl, Or.inl (by decide),
    (C7_departure_series_last_point depFlight 36000 rfl (Or.inl (by decide))).1,
    (C7_departure_series_last_point depFlight 36000 rfl (Or.inl (by decide))).2.1⟩

theorem round_mono {x y : ℝ} (h : x ≤ y) : round x ≤ round y := by
  rw [round_eq, round_eq]
  exact Int.floor_mono (by linarith)

/-- C8 counterexample: a departure flight with the fractional estimate
`avg_pax_est = 0.7` (so `N = 0.7 ≥ 0`) produces a final point whose rounded
passenger count is `1`, which exceeds `N`. -/
theorem C8_count_exceeds_N_counterexample :
    (0 : ℝ) ≤ paxOrDefault fracPaxFlight.avg_pax_est ∧
      ((calculatePassengerDistribution fracPaxFlight).getLast?).map
        PassengerTimePoint.passenger_count = some 1 ∧
      ¬ ((1 : ℝ) ≤ paxOrDefault fracPaxFlight.avg_pax_est) := by
  have hNval : paxOrDefault fracPaxFlight.avg_pax_est = 0.7 := by
    show paxOrDefault (some 0.7) = 0.7
    unfold paxOrDefault
    norm_num
  have hT : timeAnchor fracPaxFlight = some 36000 := rfl
  have harr : ¬(toLowerCase fracPaxFlight.flight_type = "arrival" ∨
      toLowerCase fracPaxFlight.flight_type = "arr") := by decide
  have hdep : toLowerCase fracPaxFlight.flight_type = "departure" ∨
      toLowerCase fracPaxFlight.flight_type = "dep" := Or.inl (by decide)
  have hsnap : hourSnap ((36000 : ℤ) - 3 * 3600) = 25200 := by decide
  have hgl : (sampleTimes (25200 : ℤ) 36000 300).getLast? = some 36000 := by
    rw [sampleTimes_getLast (by norm_num)]
    norm_num
  refine ⟨by rw [hNval]; norm_num, ?_, by rw [hNval]; norm_num⟩
  rw [dist_departure hT harr hdep, hsnap]
  rw [List.getLast?_map, hgl, Option.map_some']
  have hcond : ¬ ((Option.map PassengerTimePoint.time
      (some (departurePoint fracPaxFlight (paxOrDefault fracPaxFlight.avg_pax_est)
        25200 36000 36000))).getD 0 < (36000 : ℤ)) := by
    simp [departurePoint]
  rw [if_neg hcond, List.getLast?_map, hgl, Option.map_some']
  have hval : passengersLogNormal ((36000 : ℤ) : ℝ) (paxOrDefault fracPaxFlight.avg_pax_est)
      ((25200 : ℤ) : ℝ) ((36000 : ℤ) : ℝ) = paxOrDefault fracPaxFlight.avg_pax_est :=
    passengers_eq_N (by norm_num) (le_refl _)
  simp only [departurePoint, Option.map_some']
  rw [hval, hNval]
  norm_num [round_eq]

/-- C8 (amended): every point produced by `calculatePassengerDistribution`
carries a rounded passenger count that is never negative and never exceeds
the rounding of the flight's passenger count `N`, for every flight with
`N ≥ 0` (the unrounded bound fails for fractional `N`). -/
theorem C8_series_counts_bounded (f : CampaignFlight)
    (hN : 0 ≤ paxOrDefault f.avg_pax_est) :
    ∀ pt ∈ calculatePassengerDistribution f,
      0 ≤ pt.passenger_count ∧
        pt.passenger_count ≤ round (paxOrDefault f.avg_pax_est) := by
  intro pt hpt
  rcases hanch : timeAnchor f with _ | T
  · rw [dist_of_no_anchor hanch] at hpt
    simp at hpt
  by_cases harr : toLowerCase f.flight_type = "arrival" ∨ toLowerCase f.flight_type = "arr"
  · rw [dist_arrival hanch harr] at hpt
    obtain ⟨t, _, rfl⟩ := List.mem_map.mp hpt
    have hw : ((T : ℤ) : ℝ) < (((T + 90 * 60 : ℤ)) : ℝ) := by
      push_cast
      linarith
    have hb := @arrivalsExit_bounds ((t : ℤ) : ℝ) _ _ _ 0.3 0.3 hN hw (by norm_num)
    unfold arrivalPoint
    constructor
    · have h0 : round (0 : ℝ) ≤ round (arrivalsExitLogNormal ((t : ℤ) : ℝ)
          (paxOrDefault f.avg_pax_est) ((T : ℤ) : ℝ) (((T + 90 * 60 : ℤ)) : ℝ)) :=
        round_mono hb.1
      simpa using h0
    · exact round_mono hb.2
  by_cases hdep : toLowerCase f.flight_type = "departure" ∨ toLowerCase f.flight_type = "dep"
  · rw [dist_departure hanch harr hdep] at hpt
    have hw : ((hourSnap (T - 3 * 3600) : ℤ) : ℝ) < ((T : ℤ) : ℝ) := by
      exact_mod_cast hourSnap_window_lt T
    have hmem : ∀ q ∈ (sampleTimes (hourSnap (T - 3 * 3600)) T 300).map
        (departurePoint f (paxOrDefault f.avg_pax_est) (hourSnap (T - 3 * 3600)) T),
        0 ≤ q.passenger_count ∧
          q.passenger_count ≤ round (paxOrDefault f.avg_pax_est) := by
      intro q hq
      obtain ⟨t, _, rfl⟩ := List.mem_map.mp hq
      have hb := @passengers_bounds ((t : ℤ) : ℝ) _ _ _ 0.5 0.7 hN hw (by norm_num)
      unfold departurePoint
      constructor
      · have h0 : round (0 : ℝ) ≤ round (passengersLogNormal ((t : ℤ) : ℝ)
            (paxOrDefault f.avg_pax_est) ((hourSnap (T - 3 * 3600) : ℤ) : ℝ)
            ((T : ℤ) : ℝ)) := round_mono hb.1
        simpa using h0
      · exact round_mono hb.2
    have hfin : 0 ≤ (finalDeparturePoint f (paxOrDefault f.avg_pax_est) T).passenger_count ∧
        (finalDeparturePoint f (paxOrDefault f.avg_pax_est) T).passenger_count ≤
          round (paxOrDefault f.avg_pax_est) := by
      unfold finalDeparturePoint
      constructor
      · have h0 : round (0 : ℝ) ≤ round (paxOrDefault f.avg_pax_est) := round_mono hN
        simpa using h0
      · exact le_refl _
    split at hpt
    · rcases List.mem_append.mp hpt with h | h
      · exact hmem pt h
      · have : pt = finalDeparturePoint f (paxOrDefault f.avg_pax_est) T := by
          simpa using h
        rw [this]
        exact hfin
    · exact hmem pt hpt
  · rw [dist_of_unrecognized hanch harr hdep] at hpt
    simp at hpt

theorem C8_series_counts_bounded_witness :
    (0 : ℝ) ≤ paxOrDefault arrFlight.avg_pax_est ∧
      ∀ pt ∈ calculatePassengerDistribution arrFlight,
        0 ≤ pt.passenger_count ∧
          pt.passenger_count ≤ round (paxOrDefault arrFlight.avg_pax_est) := by
  have hN : (0 : ℝ) ≤ paxOrDefault arrFlight.avg_pax_est := by
    show (0 : ℝ) ≤ paxOrDefault (some 50)
    unfold paxOrDefault
    norm_num
  exact ⟨hN, C8_series_counts_bounded arrFlight hN⟩

/-- C4: in every row produced by `calculatePassengerGridData` for a non-empty
flight list, the `total` column equals the sum of that row's per-flight
columns. -/
theorem C4_grid_total_eq_sum (flights : List CampaignFlight) (h : flights ≠ [])
    (row : PassengerGridRow) (hrow : row ∈ calculatePassengerGridData flights) :
    row.total = row.cells.sum := by
  unfold calculatePassengerGridData at hrow
  split at hrow
  · simp at hrow
  · obtain ⟨t, _, rfl⟩ := List.mem_map.mp hrow
    rfl

theorem C4_grid_total_eq_sum_witness :
    [depFlight] ≠ [] ∧
      ∀ row ∈ calculatePassengerGridData [depFlight], row.total = row.cells.sum :=
  ⟨by simp, fun row hrow => C4_grid_total_eq_sum [depFlight] (by simp) row hrow⟩

theorem gridCell_mkFlightWindow (f : CampaignFlight) (t : ℤ) :
    gridCell t (mkFlightWindow f) = specCell f t := by
  unfold gridCell mkFlightWindow specCell
  by_cases hA : toLowerCase f.flight_type = "arrival" ∨ toLowerCase f.flight_type = "arr"
  · have hb : (toLowerCase f.flight_type == "arrival" || toLowerCase f.flight_type == "arr") =
        true := by
      rcases hA with h | h <;> simp [h]
    simp only [hb, if_pos hA, if_true]
  · have hb : (toLowerCase f.flight_type == "arrival" || toLowerCase f.flight_type == "arr") =
        false := by
      push_neg at hA
      simp [hA.1, hA.2]
    simp only [hb, if_neg hA, Bool.false_eq_true, if_false]

/-- C5 (amended): each flight's cell in the multi-flight grid equals the
corresponding model (arrival dissipation for arrivals, departure accumulation
otherwise) evaluated directly at the grid instant and rounded, with two
clamps: an arrival instant strictly before landing yields `0`, and a
departure instant strictly after departure also yields `0`. -/
theorem C5_grid_cells_eq_direct_model (flights : List CampaignFlight)
    (row : PassengerGridRow) (hrow : row ∈ calculatePassengerGridData flights) :
    row.cells = flights.map (fun f => specCell f row.time) := by
  unfold calculatePassengerGridData at hrow
  split at hrow
  · simp at hrow
  · obtain ⟨t, _, rfl⟩ := List.mem_map.mp hrow
    show List.map (gridCell t) (flights.map mkFlightWindow) = _
    rw [List.map_map]
    exact List.map_congr_left fun f _ => gridCell_mkFlightWindow f t

theorem C5_grid_cells_eq_direct_model_witness :
    ({ time := 36000, cells := [50], total := 50 } : PassengerGridRow) ∈
        calculatePassengerGridData [arrFlight] ∧
      ({ time := 36000, cells := [50], total := 50 } : PassengerGridRow).cells =
        [arrFlight].map (fun f => specCell f 36000) := by
  have hcell : gridCell 36000 (mkFlightWindow arrFlight) = 50 := by
    unfold gridCell
    rw [show (mkFlightWindow arrFlight).isArrival = true from rfl]
    rw [show (mkFlightWindow arrFlight).tActual = 36000 from rfl]
    rw [if_pos rfl, if_neg (lt_irrefl (36000 : ℤ))]
    have hN : (mkFlightWindow arrFlight).N = 50 := by
      show paxOrDefault (some 50) = 50
      unfold paxOrDefault
      norm_num
    rw [hN]
    dsimp only
    rw [arrivalsExit_eq_N (le_refl _)]
    norm_num [round_eq]
  have hmem : ({ time := 36000, cells := [50], total := 50 } : PassengerGridRow) ∈
      calculatePassengerGridData [arrFlight] := by
    have hgrid : calculatePassengerGridData [arrFlight] =
        (sampleTimes 36000 48600 300).map (fun t =>
          { time := t
            cells := [gridCell t (mkFlightWindow arrFlight)]
            total := ([gridCell t (mkFlightWindow arrFlight)] : List ℤ).sum }) := rfl
    rw [hgrid]
    apply List.mem_map.mpr
    refine ⟨36000, by decide, ?_⟩
    rw [hcell]
    rfl
  exact ⟨hmem, C5_grid_cells_eq_direct_model [arrFlight]
    { time := 36000, cells := [50], total := 50 } hmem⟩

/-- C5 counterexample: for the concrete departure flight `depFlight`
(departs at 36000), the grid row at instant 36300 — strictly after the
departure — carries the cell `0`, while the departure accumulation model
evaluated directly at that instant and rounded is `100`; the discrepancy is
not the claim's single stated (arrival-before-landing) exception. -/
theorem C5_after_departure_counterexample :
    ((calculatePassengerGridData [depFlight])[37]?).map PassengerGridRow.time =
        some 36300 ∧
      ((calculatePassengerGridData [depFlight])[37]?).map PassengerGridRow.cells =
        some [0] ∧
      round (passengersLogNormal ((36300 : ℤ) : ℝ) (paxOrDefault depFlight.avg_pax_est)
        ((25200 : ℤ) : ℝ) ((36000 : ℤ) : ℝ)) = 100 := by
  have hgrid : calculatePassengerGridData [depFlight] =
      (sampleTimes 25200 43200 300).map (fun t =>
        { time := t
          cells := [gridCell t (mkFlightWindow depFlight)]
          total := ([gridCell t (mkFlightWindow depFlight)] : List ℤ).sum }) := rfl
  have h37 : (sampleTimes 25200 43200 300)[37]? = some 36300 := by decide
  have hcell : gridCell 36300 (mkFlightWindow depFlight) = 0 := by
    unfold gridCell
    rw [show (mkFlightWindow depFlight).isArrival = false from rfl]
    rw [show (mkFlightWindow depFlight).tActual = 36000 from rfl]
    norm_num
  refine ⟨?_, ?_, ?_⟩
  · rw [hgrid, List.getElem?_map, h37]
    rfl
  · rw [hgrid, List.getElem?_map, h37, Option.map_some', Option.map_some']
    show some [gridCell 36300 (mkFlightWindow depFlight)] = some [0]
    rw [hcell]
  · have hval : passengersLogNormal ((36300 : ℤ) : ℝ) (paxOrDefault depFlight.avg_pax_est)
        ((25200 : ℤ) : ℝ) ((36000 : ℤ) : ℝ) = paxOrDefault depFlight.avg_pax_est :=
      passengers_eq_N (by norm_num) (by norm_num)
    have hN : paxOrDefault depFlight.avg_pax_est = 100 := by
      show paxOrDefault (some 100) = 100
      unfold paxOrDefault
      norm_num
    rw [hval, hN]
    norm_num [round_eq]

/-- C6 counterexample: the flight `cargoFlight` has the unrecognized type
string "Cargo"; the per-flight series generator indeed yields no points, but
the multi-flight grid aggregator still gives the flight a column — its row at
instant 36000 carries the cell value `100`, not an empty contribution. -/
theorem C6_grid_contribution_counterexample :
    calculatePassengerDistribution cargoFlight = [] ∧
      ((calculatePassengerGridData [cargoFlight])[36]?).map PassengerGridRow.time =
        some 36000 ∧
      ((calculatePassengerGridData [cargoFlight])[36]?).map PassengerGridRow.cells =
        some [100] := by
  have hdist : calculatePassengerDistribution cargoFlight = [] :=
    dist_of_unrecognized (T := 36000) rfl (by decide) (by decide)
  have hgrid : calculatePassengerGridData [cargoFlight] =
      (sampleTimes 25200 43200 300).map (fun t =>
        { time := t
          cells := [gridCell t (mkFlightWindow cargoFlight)]
          total := ([gridCell t (mkFlightWindow cargoFlight)] : List ℤ).sum }) := rfl
  have h36 : (sampleTimes 25200 43200 300)[36]? = some 36000 := by decide
  have hcell : gridCell 36000 (mkFlightWindow cargoFlight) = 100 := by
    unfold gridCell
    rw [show (mkFlightWindow cargoFlight).isArrival = false from rfl]
    rw [show (mkFlightWindow cargoFlight).tActual = 36000 from rfl]
    rw [if_neg (lt_irrefl (36000 : ℤ))]
    have hN : (mkFlightWindow cargoFlight).N = 100 := by
      show paxOrDefault none = 100
      unfold paxOrDefault
      norm_num
    rw [hN]
    dsimp only
    rw [show hourSnap (36000 - 3 * 3600 : ℤ) = 25200 from rfl]
    rw [passengers_eq_N (by norm_num) (le_refl _)]
    norm_num [round_eq]
  refine ⟨hdist, ?_, ?_⟩
  · rw [hgrid, List.getElem?_map, h36]
    rfl
  · rw [hgrid, List.getElem?_map, h36, Option.map_some', Option.map_some']
    show some [gridCell 36000 (mkFlightWindow cargoFlight)] = some [100]
    rw [hcell]

/-- C6 (amended): a flight with neither an actual nor a scheduled timestamp,
and a flight whose lowercased type string is recognized as neither an arrival
nor a departure, produce no points in the per-flight series generator (empty
result, not an error).  The multi-flight grid aggregator, by contrast, does
not skip such flights: every row carries one cell per selected flight, a
flight with an unrecognized type is processed by the departure branch
(`isArrival = false`), and a flight with no timestamp is anchored at epoch 0. -/
theorem C6_missing_inputs_no_points (f : CampaignFlight) :
    (timeAnchor f = none → calculatePassengerDistribution f = []) ∧
      (¬(toLowerCase f.flight_type = "arrival" ∨ toLowerCase f.flight_type = "arr") →
        ¬(toLowerCase f.flight_type = "departure" ∨ toLowerCase f.flight_type = "dep") →
        calculatePassengerDistribution f = [] ∧ (mkFlightWindow f).isArrival = false) ∧
      (timeAnchor f = none → (mkFlightWindow f).tActual = 0) ∧
      (∀ flights row, row ∈ calculatePassengerGridData flights →
        row.cells.length = flights.length) := by
  refine ⟨fun h => dist_of_no_anchor h, fun h1 h2 => ⟨?_, ?_⟩, fun h => ?_, ?_⟩
  · rcases hanch : timeAnchor f with _ | T
    · exact dist_of_no_anchor hanch
    · exact dist_of_unrecognized hanch h1 h2
  · unfold mkFlightWindow
    push_neg at h1
    simp [h1.1, h1.2]
  · unfold mkFlightWindow
    rw [h]
    rfl
  · intro flights row hrow
    unfold calculatePassengerGridData at hrow
    split at hrow
    · simp at hrow
    · obtain ⟨t, _, rfl⟩ := List.mem_map.mp hrow
      show (List.map (gridCell t) (flights.map mkFlightWindow)).length = flights.length
      simp

theorem C6_missing_inputs_no_points_witness :
    calculatePassengerDistribution noTimeFlight = [] ∧
      calculatePassengerDistribution cargoFlight = [] ∧
      (mkFlightWindow cargoFlight).isArrival = false ∧
      (mkFlightWindow noTimeFlight).tActual = 0 :=
  ⟨(C6_missing_inputs_no_points noTimeFlight).1 rfl,
    ((C6_missing_inputs_no_points cargoFlight).2.1 (by decide) (by decide)).1,
    ((C6_missing_inputs_no_points cargoFlight).2.1 (by decide) (by decide)).2,
    (C6_missing_inputs_no_points noTimeFlight).2.2.1 rfl⟩

theorem dist_congr_of_fields {f g : CampaignFlight}
    (h1 : f.flight_number = g.flight_number) (h2 : f.flight_type = g.flight_type)
    (h3 : timeAnchor f = timeAnchor g)
    (h4 : paxOrDefault f.avg_pax_est = paxOrDefault g.avg_pax_est) :
    calculatePassengerDistribution f = calculatePassengerDistribution g := by
  have hap : ∀ (N : ℝ) (a b t : ℤ), arrivalPoint f N a b t = arrivalPoint g N a b t := by
    intro N a b t
    unfold arrivalPoint
    rw [h1, h2]
  have hdp : ∀ (N : ℝ) (a b t : ℤ), departurePoint f N a b t = departurePoint g N a b t := by
    intro N a b t
    unfold departurePoint
    rw [h1, h2]
  have hfp : ∀ (N : ℝ) (t : ℤ), finalDeparturePoint f N t = finalDeparturePoint g N t := by
    intro N t
    unfold finalDeparturePoint
    rw [h1, h2]
  unfold calculatePassengerDistribution
  rw [h3, h2, h4]
  rcases timeAnchor g with _ | T
  · rfl
  · have hmap1 : ∀ (s e a b : ℤ),
        (sampleTimes s e 300).map (arrivalPoint f (paxOrDefault g.avg_pax_est) a b) =
        (sampleTimes s e 300).map (arrivalPoint g (paxOrDefault g.avg_pax_est) a b) :=
      fun s e a b => List.map_congr_left fun t _ => hap _ a b t
    have hmap2 : ∀ (s e a b : ℤ),
        (sampleTimes s e 300).map (departurePoint f (paxOrDefault g.avg_pax_est) a b) =
        (sampleTimes s e 300).map (departurePoint g (paxOrDefault g.avg_pax_est) a b) :=
      fun s e a b => List.map_congr_left fun t _ => hdp _ a b t
    simp only [hmap1, hmap2, hfp]

/-- C10: for every flight whose `avg_pax_est` is present but zero, both the
per-flight series generator and the grid aggregator use the default
`N = 100` for that flight, exactly as if the field were absent: JavaScript
`|| 100` applies to every falsy value, not only to `null`. -/
theorem C10_zero_pax_uses_default (f : CampaignFlight) (h : f.avg_pax_est = some 0) :
    paxOrDefault f.avg_pax_est = 100 ∧
      calculatePassengerDistribution f =
        calculatePassengerDistribution { f with avg_pax_est := none } ∧
      (mkFlightWindow f).N = 100 ∧
      (∀ t : ℤ, gridCell t (mkFlightWindow f) =
        gridCell t (mkFlightWindow { f with avg_pax_est := none })) := by
  have hval : paxOrDefault f.avg_pax_est = 100 := by
    rw [h]
    unfold paxOrDefault
    norm_num
  have hnone : paxOrDefault ({ f with avg_pax_est := none } : CampaignFlight).avg_pax_est =
      100 := rfl
  have hNf : (mkFlightWindow f).N = 100 := hval
  have hNg : (mkFlightWindow { f with avg_pax_est := none }).N = 100 := hnone
  refine ⟨hval, ?_, hNf, ?_⟩
  · exact dist_congr_of_fields rfl rfl rfl (hval.trans hnone.symm)
  · intro t
    unfold gridCell
    rw [show (mkFlightWindow f).isArrival =
        (mkFlightWindow { f with avg_pax_est := none }).isArrival from rfl]
    rw [show (mkFlightWindow f).tActual =
        (mkFlightWindow { f with avg_pax_est := none }).tActual from rfl]
    rw [hNf, hNg]

theorem C10_zero_pax_uses_default_witness :
    zeroPaxFlight.avg_pax_est = some 0 ∧
      paxOrDefault zeroPaxFlight.avg_pax_est = 100 ∧
      calculatePassengerDistribution zeroPaxFlight =
        calculatePassengerDistribution { zeroPaxFlight with avg_pax_est := none } ∧
      (mkFlightWindow zeroPaxFlight).N = 100 :=
  ⟨rfl, (C10_zero_pax_uses_default zeroPaxFlight rfl).1,
    (C10_zero_pax_uses_default zeroPaxFlight rfl).2.1,
    (C10_zero_pax_uses_default zeroPaxFlight rfl).2.2.1⟩
